import Mathlib

/-!
Shallow embedding of the quiz-automation core
(`src/automation/automation_controller.py` and the start-button handler of
`src/gui/main_window.py`), together with theorems settling the frozen claims
about it.

Conventions of the embedding:
* Python `int` is modelled by `Int` (arbitrary precision); Python floor
  division `//` is `Int.fdiv`.
* Python `str.strip()` is modelled by `pyStrip`, trimming the ASCII
  whitespace characters Python strips (space, tab, newline, carriage
  return, vertical tab, form feed).
* Python `dict` is modelled by an association list with Python's
  assignment semantics: `dictSet` replaces an existing binding in place
  and appends a fresh one at the end; `dictGet` is lookup.
* Python `set` of naturals is modelled by a duplicate-free `List Nat`
  with `insertSet`.
* `re.match` patterns of `_extract_question_numbers` are implemented as
  explicit character-list matchers (digits are ASCII `0-9`).
* Fallible collaborator calls (screen capture, OCR, oracle, pointer
  injection) are modelled by environment records returning `Except` /
  `Bool` outcomes, indexed by the position of the call in the run.
-/

namespace AutoAnswer

/-- Association-list lookup, modelling Python `d[k]` / `k in d`. -/
def dictGet {α β : Type} [DecidableEq α] : List (α × β) → α → Option β
  | [], _ => none
  | (k', v) :: rest, k => if k' = k then some v else dictGet rest k

/-- Association-list update, modelling Python `d[k] = v`: replaces an
existing binding in place, otherwise appends the new binding. -/
def dictSet {α β : Type} [DecidableEq α] : List (α × β) → α → β → List (α × β)
  | [], k, v => [(k, v)]
  | (k', v') :: rest, k, v =>
    if k' = k then (k, v) :: rest else (k', v') :: dictSet rest k v

/-- Python `set.add`: idempotent insertion into a list used as a set. -/
def insertSet (q : Nat) (s : List Nat) : List Nat :=
  if q ∈ s then s else q :: s

/-- The six ASCII characters `str.strip()` removes. -/
def pyIsSpace (c : Char) : Bool :=
  c = ' ' || c = '\t' || c = '\n' || c = '\r' || c = Char.ofNat 11 || c = Char.ofNat 12

/-- Python `str.strip()`: drop leading and trailing whitespace. -/
def pyStrip (s : String) : String :=
  String.mk (((s.data.dropWhile pyIsSpace).reverse.dropWhile pyIsSpace).reverse)

/-- Python `str.split(',')`: split on every comma, keeping empty pieces. -/
def splitOnComma : List Char → List (List Char)
  | [] => [[]]
  | c :: rest =>
    if c = ',' then [] :: splitOnComma rest
    else
      match splitOnComma rest with
      | [] => [[c]]
      | p :: ps => (c :: p) :: ps

/-- `AutomationController.parse_answer` (automation_controller.py:436-467):
split an oracle answer string into clickable option tokens. -/
def parse_answer (answer : String) : List String :=
  if answer = "" then []
  else
    let answer := pyStrip answer
    if answer.data.contains ',' then
      let options := (splitOnComma answer.data).map (fun cs => pyStrip (String.mk cs))
      options.filter (fun opt => opt ≠ "")
    else [answer]

/-- `AutomationController._calculate_scroll_distance`
(automation_controller.py:564-596).  `question_numbers` is the extracted
question-number dictionary (id, `location['top']`). -/
def calculate_scroll_distance (question_numbers : List (Nat × Int))
    (region_height overlap : Int) : Int :=
  match question_numbers with
  | [] => region_height - overlap
  | p :: rest =>
    let last_question_y := (rest.map Prod.snd).foldl max p.2
    let scroll_distance := last_question_y - overlap
    let min_scroll := Int.fdiv region_height 2
    let scroll_distance := max scroll_distance min_scroll
    let scroll_distance := min scroll_distance (region_height - overlap)
    scroll_distance

/-- Reference definition of the scroll distance, following the spec's words
(§4.2): empty positions give `viewHeight - overlap`; otherwise
`max(lastY - overlap, viewHeight / 2)` clamped to at most
`viewHeight - overlap`, where `lastY` is the maximum `y` over positions. -/
def chooseScrollDistanceSpec (questionPositions : List (Nat × Int))
    (viewHeight overlap : Int) : Int :=
  match questionPositions with
  | [] => viewHeight - overlap
  | p :: rest =>
    let lastY := (rest.map Prod.snd).foldl max p.2
    min (max (lastY - overlap) (Int.fdiv viewHeight 2)) (viewHeight - overlap)

/-- Reference definition of answer normalization, following the spec's words
(§4.4) except on blank (whitespace-only, non-empty) input, where the code
returns the singleton empty string. -/
def normalizeSpecAmended (raw : String) : List String :=
  if raw = "" then []
  else if (pyStrip raw).data.contains ',' then
    ((splitOnComma (pyStrip raw).data).map (fun cs => pyStrip (String.mk cs))).filter
      (fun opt => opt ≠ "")
  else [pyStrip raw]

/-- Bounding box of a recognized word (`location` entry of an OCR
`words_result` item). -/
structure Location where
  left : Int
  top : Int
  width : Int
  height : Int
  deriving DecidableEq, Repr

/-- One item of the OCR `words_result` list: text plus bounding box. -/
structure PositionedWord where
  words : String
  location : Location
  deriving DecidableEq, Repr

/-- Digits of a matched group converted by Python `int`. -/
def digitsToNat (ds : List Char) : Nat :=
  ds.foldl (fun a c => a * 10 + (c.toNat - '0'.toNat)) 0

/-- Pattern `^(\d+)\.$` (question-number format 1). -/
def matchNumDot (cs : List Char) : Option Nat :=
  let ds := cs.takeWhile Char.isDigit
  let rest := cs.dropWhile Char.isDigit
  if ds ≠ [] ∧ rest = ['.'] then some (digitsToNat ds) else none

/-- Pattern `^(\d+)、$` (question-number format 2). -/
def matchNumPause (cs : List Char) : Option Nat :=
  let ds := cs.takeWhile Char.isDigit
  let rest := cs.dropWhile Char.isDigit
  if ds ≠ [] ∧ rest = ['、'] then some (digitsToNat ds) else none

/-- Pattern `^[（(](\d+)[）)]$` (question-number format 3). -/
def matchParenNum (cs : List Char) : Option Nat :=
  match cs with
  | [] => none
  | c :: rest =>
    if c = '（' ∨ c = '(' then
      let ds := rest.takeWhile Char.isDigit
      match rest.dropWhile Char.isDigit with
      | [c2] =>
        if (c2 = '）' ∨ c2 = ')') ∧ ds ≠ [] then some (digitsToNat ds) else none
      | _ => none
    else none

/-- Pattern `^(\d+)[）)]$` (question-number format 4). -/
def matchNumParen (cs : List Char) : Option Nat :=
  let ds := cs.takeWhile Char.isDigit
  match cs.dropWhile Char.isDigit with
  | [c2] => if (c2 = '）' ∨ c2 = ')') ∧ ds ≠ [] then some (digitsToNat ds) else none
  | _ => none

/-- Pattern `^(\d+)[.、）)]`, not anchored at the end (question-number
format 5: text beginning with a question number). -/
def matchLoose (cs : List Char) : Option Nat :=
  let ds := cs.takeWhile Char.isDigit
  match cs.dropWhile Char.isDigit with
  | c :: _ =>
    if ds ≠ [] ∧ (c = '.' ∨ c = '、' ∨ c = '）' ∨ c = ')') then
      some (digitsToNat ds)
    else none
  | [] => none

/-- One iteration of the word loop of
`AutomationController._extract_question_numbers`
(automation_controller.py:521-560): the five formats are tried in order
(`continue` after a hit); formats 1-4 assign unconditionally, format 5
assigns only when the id is not yet present. -/
def extractQuestionNumbersStep (m : List (Nat × Int)) (item : PositionedWord) :
    List (Nat × Int) :=
  let text := (pyStrip item.words).data
  match matchNumDot text with
  | some num => dictSet m num item.location.top
  | none =>
    match matchNumPause text with
    | some num => dictSet m num item.location.top
    | none =>
      match matchParenNum text with
      | some num => dictSet m num item.location.top
      | none =>
        match matchNumParen text with
        | some num => dictSet m num item.location.top
        | none =>
          match matchLoose text with
          | some num =>
            if (dictGet m num).isSome then m else dictSet m num item.location.top
          | none => m

/-- `AutomationController._extract_question_numbers`
(automation_controller.py:505-562): question id ↦ `location['top']`. -/
def extract_question_numbers (words_result : List PositionedWord) :
    List (Nat × Int) :=
  words_result.foldl extractQuestionNumbersStep []

/-- The fixed option-marker vocabulary of
`AutomationController._extract_option_positions`. -/
def option_markers : List String := ["A", "B", "C", "D", "E", "F", "对", "错"]

/-- Python `str.startswith` on character lists. -/
def listStartsWith : List Char → List Char → Bool
  | _, [] => true
  | [], _ :: _ => false
  | c :: cs, p :: ps => c = p && listStartsWith cs ps

/-- Whether a stripped word matches one option marker: equality, or the
marker followed by one of the delimiters `.`, `、`, `）`, `)`. -/
def markerMatches (text marker : String) : Bool :=
  text = marker || listStartsWith text.data (marker.data ++ ['.']) ||
    listStartsWith text.data (marker.data ++ ['、']) ||
    listStartsWith text.data (marker.data ++ ['）']) ||
    listStartsWith text.data (marker.data ++ [')'])

/-- The inner marker loop: first marker of the vocabulary that matches the
word wins (`break`). -/
def findMarker (text : String) : List String → Option String
  | [] => none
  | marker :: rest =>
    if markerMatches text marker then some marker else findMarker text rest

/-- One iteration of the word loop of
`AutomationController._extract_option_positions`
(automation_controller.py:487-501): on a marker hit, assign the region
origin plus the bounding-box center (floor division) — unconditionally. -/
def extractOptionPositionsStep (x1 y1 : Int) (m : List (String × Int × Int))
    (item : PositionedWord) : List (String × Int × Int) :=
  let text := pyStrip item.words
  match findMarker text option_markers with
  | some marker =>
    let center_x := x1 + item.location.left + Int.fdiv item.location.width 2
    let center_y := y1 + item.location.top + Int.fdiv item.location.height 2
    dictSet m marker (center_x, center_y)
  | none => m

/-- `AutomationController._extract_option_positions`
(automation_controller.py:469-503): marker label ↦ absolute screen point. -/
def extract_option_positions (words_result : List PositionedWord)
    (region : Int × Int × Int × Int) : List (String × Int × Int) :=
  words_result.foldl (extractOptionPositionsStep region.1 region.2.1) []

/-- Shape of an OCR result: the basic mode returns a plain string, the
accurate mode a dict carrying `text` and `words_result`. -/
inductive OcrResult where
  | plain (text : String)
  | positioned (text : String) (words : List PositionedWord)

/-- External collaborators of the scroll-mode loop, as deterministic
outcome schedules: `capture`/`recognize` are indexed by the window number
(while-iteration count), `oracle`/`clickOk` by window and question id,
and the cooperative stop flag is sampled at the top of the while loop
(`stopW`) and at the top of the per-question loop (`stopQ`). -/
structure ScrollEnv where
  capture : Nat → Except Unit Unit
  recognize : Nat → Except Unit OcrResult
  oracle : Nat → Nat → Except Unit String
  clickOk : Nat → Nat → String → Bool
  stopW : Nat → Bool
  stopQ : Nat → Nat → Bool

/-- Observable state of a scroll-mode run: the `answered_questions` set and
the log of option clicks issued (window, question id, option label). -/
structure ScrollState where
  answered : List Nat
  clickLog : List (Nat × Nat × String)
  deriving DecidableEq, Repr

/-- The click events of a run that belong to question `q`. -/
def clicksFor (q : Nat) (st : ScrollState) : List (Nat × Nat × String) :=
  st.clickLog.filter (fun e => e.2.1 == q)

/-- The `for option in answer_options` loop inside the scroll-mode
per-question try block (automation_controller.py:267-273): click every
resolved option; a failing click raises, aborting the remaining options
(`false`); unresolved options are warnings only. -/
def clickAnswerOptions (env : ScrollEnv) (w q : Nat) :
    List String → List (String × Int × Int) → List (Nat × Nat × String) →
    List (Nat × Nat × String) × Bool
  | [], _, log => (log, true)
  | opt :: rest, positions, log =>
    match dictGet positions opt with
    | some _ =>
      let log := log ++ [(w, q, opt)]
      if env.clickOk w q opt then clickAnswerOptions env w q rest positions log
      else (log, false)
    | none => clickAnswerOptions env w q rest positions log

/-- The per-question try/except block of the scroll loop
(automation_controller.py:252-287): resolve option positions, ask the
oracle, parse and click; on any error the id is still added to the
answered set (the except branch). -/
def processQuestion (env : ScrollEnv) (w : Nat) (words : List PositionedWord)
    (region : Int × Int × Int × Int)
    (option_positions : Option (List (String × Int × Int)))
    (q : Nat) (st : ScrollState) : ScrollState :=
  let positions :=
    match option_positions with
    | none => extract_option_positions words region
    | some ps => ps
  match env.oracle w q with
  | .error _ => { answered := insertSet q st.answered, clickLog := st.clickLog }
  | .ok answer =>
    let answer_options := parse_answer answer
    let res := clickAnswerOptions env w q answer_options positions st.clickLog
    { answered := insertSet q st.answered, clickLog := res.1 }

/-- The `for question_num in unanswered_in_view` loop
(automation_controller.py:243-287), with its stop-flag and target-count
checks before each question. -/
def processQuestions (env : ScrollEnv) (w : Nat) (words : List PositionedWord)
    (region : Int × Int × Int × Int)
    (option_positions : Option (List (String × Int × Int)))
    (total_questions : Nat) : List Nat → ScrollState → ScrollState
  | [], st => st
  | q :: rest, st =>
    if env.stopQ w q then st
    else if total_questions ≤ st.answered.length then st
    else
      processQuestions env w words region option_positions total_questions rest
        (processQuestion env w words region option_positions q st)

/-- `AutomationController._answering_loop_scroll_mode`
(automation_controller.py:164-298), with the while loop bounded by fuel
(the loop need not terminate when windows keep showing no new question).
`w` counts started while-iterations.  A capture failure, a recognition
failure, or a non-dict recognition result `break`s out of the loop; the
scrolling itself is an external effect with no bearing on the state. -/
def answering_loop_scroll_mode (env : ScrollEnv) (region : Int × Int × Int × Int)
    (option_positions : Option (List (String × Int × Int)))
    (total_questions : Nat) :
    Nat → Nat → ScrollState → ScrollState
  | 0, _, st => st
  | fuel + 1, w, st =>
    if total_questions ≤ st.answered.length then st
    else if env.stopW w then st
    else
      match env.capture w with
      | .error _ => st
      | .ok _ =>
        match env.recognize w with
        | .error _ => st
        | .ok (.plain _) => st
        | .ok (.positioned _text words) =>
          let question_numbers := extract_question_numbers words
          if question_numbers.isEmpty then
            answering_loop_scroll_mode env region option_positions total_questions
              fuel (w + 1) st
          else
            let current_questions :=
              List.insertionSort (· ≤ ·) (question_numbers.map Prod.fst)
            let unanswered_in_view :=
              current_questions.filter (fun q => decide (q ∉ st.answered))
            if unanswered_in_view.isEmpty then
              answering_loop_scroll_mode env region option_positions total_questions
                fuel (w + 1) st
            else
              let st' := processQuestions env w words region option_positions
                total_questions unanswered_in_view st
              if st'.answered.length < total_questions then
                answering_loop_scroll_mode env region option_positions
                  total_questions fuel (w + 1) st'
              else st'

/-- A concrete scroll environment used by witnesses: every window shows
question 1 with an option A, the oracle answers "A", clicks succeed, the
stop flag is never set. -/
def sampleScrollEnv : ScrollEnv where
  capture := fun _ => .ok ()
  recognize := fun _ => .ok (.positioned "1.题目"
    [⟨"1.", ⟨0, 100, 10, 10⟩⟩, ⟨"A", ⟨0, 120, 10, 10⟩⟩])
  oracle := fun _ _ => .ok "A"
  clickOk := fun _ _ _ => true
  stopW := fun _ => false
  stopQ := fun _ _ => false

/-- A scroll environment whose capture always fails. -/
def captureFailEnv : ScrollEnv :=
  { sampleScrollEnv with capture := fun _ => .error () }

/-- External collaborators of the fixed-page loop, indexed by the iteration
number (question number `i`). -/
structure NormalEnv where
  capture : Nat → Except Unit Unit
  recognize : Nat → Except Unit OcrResult
  oracle : Nat → Except Unit String
  clickOk : Nat → String → Bool
  nextOk : Nat → Bool
  stop : Nat → Bool

/-- Observable state of a fixed-page run: which iterations began
processing, which ended in a caught error (with the raised message), and
the option clicks issued (iteration, option label). -/
structure NormalState where
  attempted : List Nat
  errors : List (Nat × String)
  clickLog : List (Nat × String)
  deriving DecidableEq, Repr

/-- The `for option in answer_options` loop of
`AutomationController._answer_single_question`
(automation_controller.py:382-388): `false` on a raised error.  A `none`
option dictionary models Python's `option in None`, which raises
`TypeError` at the first membership test. -/
def clickOptionsNormal (env : NormalEnv) (i : Nat) :
    List String → Option (List (String × Int × Int)) → NormalState →
    NormalState × Bool
  | [], _, st => (st, true)
  | _ :: _, none, st => (st, false)
  | opt :: rest, some positions, st =>
    match dictGet positions opt with
    | some _ =>
      let st := { st with clickLog := st.clickLog ++ [(i, opt)] }
      if env.clickOk i opt then clickOptionsNormal env i rest (some positions) st
      else (st, false)
    | none => clickOptionsNormal env i rest (some positions) st

/-- `AutomationController._answer_single_question`
(automation_controller.py:309-399): capture, recognize (auto-extracting
option positions in the positional mode when none were supplied), ask the
oracle, parse and click the answer, then click "next" unless last or
auto-advance.  Each stage's failure is re-raised with its own message. -/
def answer_single_question (env : NormalEnv) (question_num : Nat)
    (region : Int × Int × Int × Int)
    (option_positions : Option (List (String × Int × Int)))
    (next_button_pos : Option (Int × Int)) (auto_next is_last : Bool)
    (st : NormalState) : NormalState × Except String Unit :=
  match env.capture question_num with
  | .error _ => (st, .error "截图失败")
  | .ok _ =>
    match env.recognize question_num with
    | .error _ => (st, .error "OCR 识别失败")
    | .ok ocr_result =>
      let positions :=
        match ocr_result with
        | .positioned _ words =>
          match option_positions with
          | none => some (extract_option_positions words region)
          | some ps => some ps
        | .plain _ => option_positions
      match env.oracle question_num with
      | .error _ => (st, .error "AI 分析失败")
      | .ok answer =>
        let answer_options := parse_answer answer
        let res := clickOptionsNormal env question_num answer_options positions st
        if res.2 = false then (res.1, .error "点击答案失败")
        else
          if ¬ is_last ∧ ¬ auto_next ∧ next_button_pos.isSome then
            if env.nextOk question_num then (res.1, .ok ())
            else (res.1, .error "点击下一题按钮失败")
          else (res.1, .ok ())

/-- The `for i in range(1, total_questions + 1)` loop of
`AutomationController._answering_loop_normal_mode`
(automation_controller.py:130-158): the stop flag is checked at the top of
each iteration; any error of `_answer_single_question` is caught, recorded,
and the loop continues with the next iteration. -/
def answering_loop_normal (env : NormalEnv) (region : Int × Int × Int × Int)
    (option_positions : Option (List (String × Int × Int)))
    (next_button_pos : Option (Int × Int)) (auto_next : Bool)
    (total_questions : Nat) : List Nat → NormalState → NormalState
  | [], st => st
  | i :: rest, st =>
    if env.stop i then st
    else
      let is_last := i = total_questions
      let st1 := { st with attempted := st.attempted ++ [i] }
      let st2 :=
        match answer_single_question env i region option_positions next_button_pos
          auto_next is_last st1 with
        | (st', .ok _) => st'
        | (st', .error msg) => { st' with errors := st'.errors ++ [(i, msg)] }
      answering_loop_normal env region option_positions next_button_pos auto_next
        total_questions rest st2

/-- `AutomationController._answering_loop_normal_mode`: run the iterations
`1..total_questions` from the empty state. -/
def answering_loop_normal_mode (env : NormalEnv) (region : Int × Int × Int × Int)
    (option_positions : Option (List (String × Int × Int)))
    (next_button_pos : Option (Int × Int)) (auto_next : Bool)
    (total_questions : Nat) : NormalState :=
  answering_loop_normal env region option_positions next_button_pos auto_next
    total_questions (List.range' 1 total_questions) ⟨[], [], []⟩

/-- A fixed-page environment in which every capture fails. -/
def normalCaptureFailEnv : NormalEnv where
  capture := fun _ => .error ()
  recognize := fun _ => .ok (.plain "题目")
  oracle := fun _ => .ok "A"
  clickOk := fun _ _ => true
  nextOk := fun _ => true
  stop := fun _ => false

/-- Configuration visible to `MainWindow._on_start_button_click`
(main_window.py:1009-1168) when the button is pressed while idle. -/
structure GuiConfig where
  api_key : Bool
  ocr_mode : String
  baidu_basic_api_key : Bool
  baidu_basic_secret_key : Bool
  baidu_accurate_api_key : Bool
  baidu_accurate_secret_key : Bool
  region_set : Bool
  option_positions_marked : Bool
  interval_ok : Bool
  total_ok : Bool
  answering_mode : String
  scroll_overlap_ok : Bool
  scroll_delay_ok : Bool
  deriving DecidableEq, Repr

/-- Outcome of a start-button press: an explicit configuration-error
dialog (an early `return` after `messagebox.showerror("配置错误", …)`), the
generic failure dialog of the surrounding `except` handler
(`"启动失败: …"`), or a started session. -/
inductive StartOutcome where
  | configError (msg : String)
  | startFailed (msg : String)
  | started (scroll_mode : Bool)
  deriving DecidableEq, Repr

/-- The `try` block of `_on_start_button_click` (main_window.py:1018-1149).
`scroll_mode0` is the value of the local variable `scroll_mode` when the
fixed-mode coordinate check at line 1049 reads it: Python treats a name
assigned anywhere in a function as local throughout the function, and
reading it before its first assignment (line 1080) raises
`UnboundLocalError`, modelled by `none`.  An exception escaping the block
is the `.error` case. -/
def start_button_try (cfg : GuiConfig) (scroll_mode0 : Option Bool) :
    Except String StartOutcome :=
  if ¬ cfg.api_key then .ok (.configError "请先设置 DeepSeek API Key")
  else if cfg.ocr_mode = "general_basic" ∧ ¬ cfg.baidu_basic_api_key then
    .ok (.configError "请先设置百度 OCR 基础模式 API Key")
  else if cfg.ocr_mode = "general_basic" ∧ ¬ cfg.baidu_basic_secret_key then
    .ok (.configError "请先设置百度 OCR 基础模式 Secret Key")
  else if cfg.ocr_mode ≠ "general_basic" ∧ ¬ cfg.baidu_accurate_api_key then
    .ok (.configError "请先设置百度 OCR 高精度模式 API Key")
  else if cfg.ocr_mode ≠ "general_basic" ∧ ¬ cfg.baidu_accurate_secret_key then
    .ok (.configError "请先设置百度 OCR 高精度模式 Secret Key")
  else if ¬ cfg.region_set then .ok (.configError "请先框选答题区域")
  else
    match scroll_mode0 with
    | none => .error "local variable scroll_mode referenced before assignment"
    | some sm =>
      if ¬ sm ∧ cfg.ocr_mode = "general_basic" ∧ ¬ cfg.option_positions_marked then
        .ok (.configError "请先标记选项位置")
      else if ¬ cfg.interval_ok then .ok (.configError "每题间隔设置无效")
      else if ¬ cfg.total_ok then .ok (.configError "总题数设置无效")
      else
        let scroll_mode := cfg.answering_mode = "scroll"
        if scroll_mode ∧ ¬ cfg.scroll_overlap_ok then
          .ok (.configError "重叠区域设置无效")
        else if scroll_mode ∧ ¬ cfg.scroll_delay_ok then
          .ok (.configError "滚动延迟设置无效")
        else .ok (.started scroll_mode)

/-- `MainWindow._on_start_button_click` while idle: run the `try` block
with the local `scroll_mode` unbound at the line-1049 read; the `except`
handler (main_window.py:1151-1159) turns the escaped exception into the
generic "启动失败" dialog. -/
def on_start_button_click (cfg : GuiConfig) : StartOutcome :=
  match start_button_try cfg none with
  | .ok outcome => outcome
  | .error e => .startFailed ("启动答题失败: " ++ e)

/-- C1: `_calculate_scroll_distance` matches the reference definition: for
`0 ≤ overlap < viewHeight`, an empty question-position map yields exactly
`viewHeight - overlap`, and a non-empty map yields
`max(lastY - overlap, viewHeight / 2)` (floor division) clamped to at most
`viewHeight - overlap`. -/
theorem calculate_scroll_distance_matches_spec
    (qn : List (Nat × Int)) (h o : Int) (h0 : 0 ≤ o) (h1 : o < h) :
    calculate_scroll_distance qn h o = chooseScrollDistanceSpec qn h o ∧
    calculate_scroll_distance [] h o = h - o := by
  constructor
  · cases qn with
    | nil => rfl
    | cons p rest =>
      simp only [calculate_scroll_distance, chooseScrollDistanceSpec]
  · rfl

/-- Witness for C1 at `h = 10`, `o = 3`, positions `{1 ↦ 120, 2 ↦ 350}`. -/
theorem calculate_scroll_distance_matches_spec_witness :
    calculate_scroll_distance [(1, 120), (2, 350)] 10 3
        = chooseScrollDistanceSpec [(1, 120), (2, 350)] 10 3 ∧
    calculate_scroll_distance [] 10 3 = 10 - 3 :=
  calculate_scroll_distance_matches_spec [(1, 120), (2, 350)] 10 3
    (by decide) (by decide)

/-- C2, counterexample: with `viewHeight = 10`, `overlap = 8`
(satisfying `0 ≤ overlap < viewHeight`) and the non-empty position map
`{1 ↦ 0}`, the code returns `2`, which is strictly less than
`viewHeight / 2 = 5` — refuting the claimed lower bound. -/
theorem calculate_scroll_distance_below_half_height :
    calculate_scroll_distance [(1, 0)] 10 8 = 2 ∧
    Int.fdiv 10 2 = 5 ∧ (0 : Int) ≤ 8 ∧ (8 : Int) < 10 ∧
    ¬ (Int.fdiv 10 2 ≤ calculate_scroll_distance [(1, 0)] 10 8) := by
  refine ⟨by decide, by decide, by decide, by decide, by decide⟩

/-- C2, amended: for `0 ≤ overlap < viewHeight` and any non-empty question
positions, the returned distance is never greater than
`viewHeight - overlap`, and never less than
`min (viewHeight / 2) (viewHeight - overlap)` (so the `viewHeight / 2`
lower bound of the original claim holds exactly when
`viewHeight / 2 ≤ viewHeight - overlap`). -/
theorem calculate_scroll_distance_bounds
    (p : Nat × Int) (rest : List (Nat × Int)) (h o : Int)
    (h0 : 0 ≤ o) (h1 : o < h) :
    calculate_scroll_distance (p :: rest) h o ≤ h - o ∧
    min (Int.fdiv h 2) (h - o) ≤ calculate_scroll_distance (p :: rest) h o := by
  simp only [calculate_scroll_distance]
  constructor
  · exact min_le_right _ _
  · exact min_le_min (le_max_right _ _) (le_refl _)

/-- Witness for C2's amended bounds at `h = 10`, `o = 8`, positions
`{1 ↦ 0}`. -/
theorem calculate_scroll_distance_bounds_witness :
    calculate_scroll_distance [(1, 0)] 10 8 ≤ 10 - 8 ∧
    min (Int.fdiv 10 2) (10 - 8) ≤ calculate_scroll_distance [(1, 0)] 10 8 :=
  calculate_scroll_distance_bounds (1, 0) [] 10 8 (by decide) (by decide)

/-- C5, counterexample: a blank (whitespace-only, non-empty) input yields
the singleton list containing the empty string, not the empty list: the
code's emptiness test runs before stripping. -/
theorem parse_answer_blank_not_empty :
    parse_answer " " = [""] ∧ parse_answer " " ≠ [] := by
  refine ⟨by decide, by decide⟩

/-- C5, amended: `parse_answer` realizes the spec's normalization except on
blank non-empty input: empty input yields `[]`; blank non-empty input
yields `[""]`; input containing a comma yields the comma-separated pieces
trimmed with empty pieces dropped; any other input yields the singleton
trimmed string.  In particular `parse_answer "A,C" = ["A","C"]`,
`parse_answer " a , c " = ["a","c"]`, `parse_answer "" = []` and
`parse_answer "对" = ["对"]`. -/
theorem parse_answer_matches_amended_spec :
    (∀ s : String, parse_answer s = normalizeSpecAmended s) ∧
    parse_answer "A,C" = ["A", "C"] ∧
    parse_answer " a , c " = ["a", "c"] ∧
    parse_answer "" = [] ∧
    parse_answer "对" = ["对"] ∧
    parse_answer " " = [""] := by
  refine ⟨?_, by decide, by decide, by decide, by decide, by decide⟩
  intro s
  simp only [parse_answer, normalizeSpecAmended]

/-- Reading a key just written by `dictSet` yields the written value. -/
theorem dictGet_dictSet {α β : Type} [DecidableEq α]
    (m : List (α × β)) (k : α) (v : β) : dictGet (dictSet m k v) k = some v := by
  induction m with
  | nil => simp [dictGet, dictSet]
  | cons p rest ih =>
    by_cases hk : p.1 = k
    · simp [dictGet, dictSet, hk]
    · simp [dictGet, dictSet, hk, ih]

/-- C3, counterexample: words `["1.foo" at y=100, "1." at y=500]`.  The
first word matches id 1 via the loose-prefix format (y = 100); the second
matches via the exact `"1."` format, which overwrites, so the recorded
offset is 500 — the later match, not the first. -/
theorem extract_question_numbers_overwrites :
    dictGet (extract_question_numbers
      [⟨"1.foo", ⟨0, 100, 10, 10⟩⟩, ⟨"1.", ⟨0, 500, 10, 10⟩⟩]) 1 = some 500 ∧
    (500 : Int) ≠ 100 := by
  refine ⟨by decide, by decide⟩

/-- C3, amended: per word, only the first matching format is used; a
duplicate id is discarded only when the later match arises from the
loose-prefix format 5 (`"N<delim>…"`) — a later match from one of the
exact formats 1-4 overwrites the recorded offset with the later word's
offset. -/
theorem extract_question_numbers_duplicate_policy
    (ws : List PositionedWord) (w : PositionedWord) (num : Nat) :
    ((matchNumDot (pyStrip w.words).data = some num ∨
      (matchNumDot (pyStrip w.words).data = none ∧
        matchNumPause (pyStrip w.words).data = some num) ∨
      (matchNumDot (pyStrip w.words).data = none ∧
        matchNumPause (pyStrip w.words).data = none ∧
        matchParenNum (pyStrip w.words).data = some num) ∨
      (matchNumDot (pyStrip w.words).data = none ∧
        matchNumPause (pyStrip w.words).data = none ∧
        matchParenNum (pyStrip w.words).data = none ∧
        matchNumParen (pyStrip w.words).data = some num)) →
      dictGet (extract_question_numbers (ws ++ [w])) num = some w.location.top) ∧
    (matchNumDot (pyStrip w.words).data = none →
      matchNumPause (pyStrip w.words).data = none →
      matchParenNum (pyStrip w.words).data = none →
      matchNumParen (pyStrip w.words).data = none →
      matchLoose (pyStrip w.words).data = some num →
      (dictGet (extract_question_numbers ws) num).isSome = true →
      extract_question_numbers (ws ++ [w]) = extract_question_numbers ws) := by
  have hfold : extract_question_numbers (ws ++ [w])
      = extractQuestionNumbersStep (extract_question_numbers ws) w := by
    simp [extract_question_numbers, List.foldl_append]
  constructor
  · intro hcase
    rcases hcase with h1 | ⟨h1, h2⟩ | ⟨h1, h2, h3⟩ | ⟨h1, h2, h3, h4⟩
    · rw [hfold]; simp only [extractQuestionNumbersStep, h1]
      exact dictGet_dictSet _ _ _
    · rw [hfold]; simp only [extractQuestionNumbersStep, h1, h2]
      exact dictGet_dictSet _ _ _
    · rw [hfold]; simp only [extractQuestionNumbersStep, h1, h2, h3]
      exact dictGet_dictSet _ _ _
    · rw [hfold]; simp only [extractQuestionNumbersStep, h1, h2, h3, h4]
      exact dictGet_dictSet _ _ _
  · intro h1 h2 h3 h4 h5 hmem
    rw [hfold]
    simp only [extractQuestionNumbersStep, h1, h2, h3, h4, h5, hmem, if_pos]

/-- Witness for C3's amended duplicate policy: the exact format `"2."`
overwrites the earlier entry for id 2, and the loose-prefix word
`"2.bar"` leaves an existing entry for id 2 untouched. -/
theorem extract_question_numbers_duplicate_policy_witness :
    dictGet (extract_question_numbers
      ([⟨"2.foo", ⟨0, 100, 10, 10⟩⟩] ++ [⟨"2.", ⟨0, 400, 10, 10⟩⟩])) 2
      = some (400 : Int) ∧
    extract_question_numbers ([⟨"2.", ⟨0, 400, 10, 10⟩⟩] ++ [⟨"2.bar", ⟨0, 700, 10, 10⟩⟩])
      = extract_question_numbers [⟨"2.", ⟨0, 400, 10, 10⟩⟩] :=
  ⟨(extract_question_numbers_duplicate_policy
      [⟨"2.foo", ⟨0, 100, 10, 10⟩⟩] ⟨"2.", ⟨0, 400, 10, 10⟩⟩ 2).1
      (Or.inl (by decide)),
   (extract_question_numbers_duplicate_policy
      [⟨"2.", ⟨0, 400, 10, 10⟩⟩] ⟨"2.bar", ⟨0, 700, 10, 10⟩⟩ 2).2
      (by decide) (by decide) (by decide) (by decide) (by decide) (by decide)⟩

/-- C4, counterexample: words `["A" centered at (5,5), "A." centered at
(105,105)]` with region origin (0,0).  The second occurrence overwrites
the first, so label A maps to (105,105), not to the first word's
(5,5). -/
theorem extract_option_positions_overwrites :
    dictGet (extract_option_positions
      [⟨"A", ⟨0, 0, 10, 10⟩⟩, ⟨"A.", ⟨100, 100, 10, 10⟩⟩] (0, 0, 200, 200)) "A"
      = some (105, 105) ∧
    ((105, 105) : Int × Int) ≠ (5, 5) := by
  refine ⟨by decide, by decide⟩

/-- C4, amended: for each word, the first marker of the vocabulary that
matches wins; when the same label is matched by several words of one
capture, the LAST occurrence wins (later matches overwrite); the kept
point is the region origin plus the word's bounding-box center
(floor division). -/
theorem extract_option_positions_last_wins
    (ws : List PositionedWord) (w : PositionedWord)
    (x1 y1 x2 y2 : Int) (marker : String)
    (hm : findMarker (pyStrip w.words) option_markers = some marker) :
    dictGet (extract_option_positions (ws ++ [w]) (x1, y1, x2, y2)) marker
      = some (x1 + w.location.left + Int.fdiv w.location.width 2,
              y1 + w.location.top + Int.fdiv w.location.height 2) := by
  have hfold : extract_option_positions (ws ++ [w]) (x1, y1, x2, y2)
      = extractOptionPositionsStep x1 y1
          (extract_option_positions ws (x1, y1, x2, y2)) w := by
    simp [extract_option_positions, List.foldl_append]
  rw [hfold]
  simp only [extractOptionPositionsStep, hm]
  exact dictGet_dictSet _ _ _

/-- Witness for C4's amended last-wins policy at the counterexample's
input. -/
theorem extract_option_positions_last_wins_witness :
    dictGet (extract_option_positions
      ([⟨"A", ⟨0, 0, 10, 10⟩⟩] ++ [⟨"A.", ⟨100, 100, 10, 10⟩⟩]) (0, 0, 200, 200)) "A"
      = some (0 + 100 + Int.fdiv 10 2, 0 + 100 + Int.fdiv 10 2) :=
  extract_option_positions_last_wins [⟨"A", ⟨0, 0, 10, 10⟩⟩]
    ⟨"A.", ⟨100, 100, 10, 10⟩⟩ 0 0 200 200 "A" (by decide)

theorem mem_insertSet_self (q : Nat) (s : List Nat) : q ∈ insertSet q s := by
  unfold insertSet; split
  · assumption
  · exact List.mem_cons_self _ _

theorem mem_insertSet_of_mem {p : Nat} {s : List Nat} (q : Nat) (h : p ∈ s) :
    p ∈ insertSet q s := by
  unfold insertSet; split
  · exact h
  · exact List.mem_cons_of_mem _ h

theorem length_insertSet_le (q : Nat) (s : List Nat) :
    (insertSet q s).length ≤ s.length + 1 := by
  unfold insertSet; split
  · exact Nat.le_succ _
  · simp

/-- Clicks issued for question `q` never change the part of the log that
belongs to a different question `p`. -/
theorem clickAnswerOptions_filter_ne (env : ScrollEnv) (w q p : Nat)
    (hpq : p ≠ q) :
    ∀ (opts : List String) (positions : List (String × Int × Int))
      (log : List (Nat × Nat × String)),
    ((clickAnswerOptions env w q opts positions log).1.filter
        (fun e => e.2.1 == p))
      = log.filter (fun e => e.2.1 == p)
  | [], _, _ => rfl
  | opt :: rest, positions, log => by
    have hb : (q == p) = false := beq_eq_false_iff_ne.mpr (Ne.symm hpq)
    simp only [clickAnswerOptions]
    cases hd : dictGet positions opt with
    | none => exact clickAnswerOptions_filter_ne env w q p hpq rest positions log
    | some v =>
      by_cases hc : env.clickOk w q opt
      · simp only [hc, if_true]
        rw [clickAnswerOptions_filter_ne env w q p hpq rest positions _]
        simp [List.filter_append, hb]
      · simp [hc, List.filter_append, hb]

theorem processQuestion_answered_eq (env : ScrollEnv) (w : Nat)
    (words : List PositionedWord) (region : Int × Int × Int × Int)
    (optPos : Option (List (String × Int × Int))) (q : Nat) (st : ScrollState) :
    (processQuestion env w words region optPos q st).answered
      = insertSet q st.answered := by
  unfold processQuestion
  cases env.oracle w q <;> rfl

theorem processQuestion_clicksFor_ne (env : ScrollEnv) (w : Nat)
    (words : List PositionedWord) (region : Int × Int × Int × Int)
    (optPos : Option (List (String × Int × Int))) (q p : Nat) (st : ScrollState)
    (hpq : p ≠ q) :
    clicksFor p (processQuestion env w words region optPos q st)
      = clicksFor p st := by
  unfold processQuestion clicksFor
  cases env.oracle w q with
  | error e => rfl
  | ok ans => exact clickAnswerOptions_filter_ne env w q p hpq _ _ _

theorem processQuestions_answered_mono (env : ScrollEnv) (w : Nat)
    (words : List PositionedWord) (region : Int × Int × Int × Int)
    (optPos : Option (List (String × Int × Int))) (total : Nat) :
    ∀ (l : List Nat) (st : ScrollState) (p : Nat), p ∈ st.answered →
    p ∈ (processQuestions env w words region optPos total l st).answered
  | [], _, _, h => h
  | q :: rest, st, p, h => by
    simp only [processQuestions]
    by_cases h1 : env.stopQ w q = true
    · simp [h1, h]
    · by_cases h2 : total ≤ st.answered.length
      · simp [h1, h2, h]
      · simp only [h1, h2, if_false, Bool.false_eq_true, ite_false]
        apply processQuestions_answered_mono env w words region optPos total rest
        rw [processQuestion_answered_eq]
        exact mem_insertSet_of_mem q h

theorem processQuestions_clicksFor_not_mem (env : ScrollEnv) (w : Nat)
    (words : List PositionedWord) (region : Int × Int × Int × Int)
    (optPos : Option (List (String × Int × Int))) (total : Nat) :
    ∀ (l : List Nat) (st : ScrollState) (p : Nat), p ∉ l →
    clicksFor p (processQuestions env w words region optPos total l st)
      = clicksFor p st
  | [], _, _, _ => rfl
  | q :: rest, st, p, h => by
    have hpq : p ≠ q := fun hc => h (hc ▸ List.mem_cons_self q rest)
    have hrest : p ∉ rest := fun hc => h (List.mem_cons_of_mem q hc)
    simp only [processQuestions]
    by_cases h1 : env.stopQ w q = true
    · simp [h1]
    · by_cases h2 : total ≤ st.answered.length
      · simp [h1, h2]
      · simp only [h1, h2, if_false, Bool.false_eq_true, ite_false]
        rw [processQuestions_clicksFor_not_mem env w words region optPos total
          rest _ p hrest]
        exact processQuestion_clicksFor_ne env w words region optPos q p st hpq

theorem processQuestions_length_le (env : ScrollEnv) (w : Nat)
    (words : List PositionedWord) (region : Int × Int × Int × Int)
    (optPos : Option (List (String × Int × Int))) (total : Nat) :
    ∀ (l : List Nat) (st : ScrollState), st.answered.length ≤ total →
    (processQuestions env w words region optPos total l st).answered.length ≤ total
  | [], _, h => h
  | q :: rest, st, h => by
    simp only [processQuestions]
    by_cases h1 : env.stopQ w q = true
    · simp [h1, h]
    · by_cases h2 : total ≤ st.answered.length
      · simp [h1, h2, h]
      · simp only [h1, h2, if_false, Bool.false_eq_true, ite_false]
        apply processQuestions_length_le env w words region optPos total rest
        rw [processQuestion_answered_eq]
        calc (insertSet q st.answered).length
            ≤ st.answered.length + 1 := length_insertSet_le q st.answered
          _ ≤ total := Nat.succ_le_of_lt (Nat.lt_of_not_le h2)

theorem scroll_loop_answered_mono (env : ScrollEnv)
    (region : Int × Int × Int × Int)
    (optPos : Option (List (String × Int × Int))) (total : Nat) :
    ∀ (fuel w : Nat) (st : ScrollState) (p : Nat), p ∈ st.answered →
    p ∈ (answering_loop_scroll_mode env region optPos total fuel w st).answered
  | 0, _, _, _, h => h
  | fuel + 1, w, st, p, h => by
    simp only [answering_loop_scroll_mode]
    split
    · exact h
    · split
      · exact h
      · split
        · exact h
        · split
          · exact h
          · exact h
          · split
            · exact scroll_loop_answered_mono env region optPos total fuel
                (w + 1) st p h
            · split
              · exact scroll_loop_answered_mono env region optPos total fuel
                  (w + 1) st p h
              · split
                · apply scroll_loop_answered_mono env region optPos total fuel (w + 1)
                  exact processQuestions_answered_mono env w _ region optPos
                    total _ st p h
                · exact processQuestions_answered_mono env w _ region optPos
                    total _ st p h

theorem scroll_loop_clicksFor_answered (env : ScrollEnv)
    (region : Int × Int × Int × Int)
    (optPos : Option (List (String × Int × Int))) (total : Nat) :
    ∀ (fuel w : Nat) (st : ScrollState) (q : Nat), q ∈ st.answered →
    clicksFor q (answering_loop_scroll_mode env region optPos total fuel w st)
      = clicksFor q st
  | 0, _, _, _, _ => rfl
  | fuel + 1, w, st, q, h => by
    have hnot : ∀ (cur : List Nat),
        q ∉ cur.filter (fun x => decide (x ∉ st.answered)) := by
      intro cur hmem
      rcases List.mem_filter.mp hmem with ⟨-, hdec⟩
      exact (of_decide_eq_true hdec) h
    simp only [answering_loop_scroll_mode]
    split
    · rfl
    · split
      · rfl
      · split
        · rfl
        · split
          · rfl
          · rfl
          · split
            · exact scroll_loop_clicksFor_answered env region optPos total fuel
                (w + 1) st q h
            · split
              · exact scroll_loop_clicksFor_answered env region optPos total fuel
                  (w + 1) st q h
              · split
                · rw [scroll_loop_clicksFor_answered env region optPos total fuel
                    (w + 1) _ q (processQuestions_answered_mono env w _ region
                      optPos total _ st q h)]
                  exact processQuestions_clicksFor_not_mem env w _ region optPos
                    total _ st q (hnot _)
                · exact processQuestions_clicksFor_not_mem env w _ region optPos
                    total _ st q (hnot _)

theorem scroll_loop_length_le (env : ScrollEnv)
    (region : Int × Int × Int × Int)
    (optPos : Option (List (String × Int × Int))) (total : Nat) :
    ∀ (fuel w : Nat) (st : ScrollState), st.answered.length ≤ total →
    (answering_loop_scroll_mode env region optPos total fuel w st).answered.length
      ≤ total
  | 0, _, _, h => h
  | fuel + 1, w, st, h => by
    simp only [answering_loop_scroll_mode]
    split
    · exact h
    · split
      · exact h
      · split
        · exact h
        · split
          · exact h
          · exact h
          · split
            · exact scroll_loop_length_le env region optPos total fuel (w + 1) st h
            · split
              · exact scroll_loop_length_le env region optPos total fuel (w + 1) st h
              · split
                · apply scroll_loop_length_le env region optPos total fuel (w + 1)
                  exact processQuestions_length_le env w _ region optPos total _ st h
                · exact processQuestions_length_le env w _ region optPos total _ st h

theorem scroll_loop_stops_at_target (env : ScrollEnv)
    (region : Int × Int × Int × Int)
    (optPos : Option (List (String × Int × Int))) (total fuel w : Nat)
    (st : ScrollState) (h : total ≤ st.answered.length) :
    answering_loop_scroll_mode env region optPos total fuel w st = st := by
  cases fuel with
  | zero => rfl
  | succ n =>
    simp only [answering_loop_scroll_mode]
    rw [if_pos h]

/-- C6: throughout every scroll-mode run the answered-id set only grows —
an id present in the set at any point of the run is still present at the
end — and the session never re-clicks options for an already-answered id:
no click event for such an id is ever appended, because each window only
processes the visible ids not already in the answered set. -/
theorem scroll_mode_answered_monotone_no_reclick (env : ScrollEnv)
    (region : Int × Int × Int × Int)
    (optPos : Option (List (String × Int × Int))) (total fuel w : Nat)
    (st : ScrollState) (q : Nat) (hq : q ∈ st.answered) :
    q ∈ (answering_loop_scroll_mode env region optPos total fuel w st).answered ∧
    clicksFor q (answering_loop_scroll_mode env region optPos total fuel w st)
      = clicksFor q st :=
  ⟨scroll_loop_answered_mono env region optPos total fuel w st q hq,
   scroll_loop_clicksFor_answered env region optPos total fuel w st q hq⟩

/-- Witness for C6: id 7 is answered at entry; after two further windows it
is still answered and has received no new clicks. -/
theorem scroll_mode_answered_monotone_no_reclick_witness :
    7 ∈ (answering_loop_scroll_mode sampleScrollEnv (0, 0, 100, 300) none 3 2 0
      ⟨[7], []⟩).answered ∧
    clicksFor 7 (answering_loop_scroll_mode sampleScrollEnv (0, 0, 100, 300) none 3 2 0
      ⟨[7], []⟩) = clicksFor 7 ⟨[7], []⟩ :=
  scroll_mode_answered_monotone_no_reclick sampleScrollEnv (0, 0, 100, 300) none 3 2 0
    ⟨[7], []⟩ 7 (by decide)

/-- C7: in the scroll loop, a capture error or a recognition error ends the
whole run immediately (the loop returns the state unchanged and processes
no further window), whereas an error while answering one question is
caught locally — the per-question step always adds the id to the answered
set, on the error path as on the success path — and the window's question
loop continues with the next unanswered id. -/
theorem scroll_mode_fatal_vs_local_errors (env : ScrollEnv)
    (region : Int × Int × Int × Int)
    (optPos : Option (List (String × Int × Int))) (total fuel w q : Nat)
    (words : List PositionedWord) (rest : List Nat) (st : ScrollState)
    (hrun : st.answered.length < total) (hstop : env.stopW w = false) :
    (env.capture w = .error () →
      answering_loop_scroll_mode env region optPos total (fuel + 1) w st = st) ∧
    (env.recognize w = .error () →
      answering_loop_scroll_mode env region optPos total (fuel + 1) w st = st) ∧
    (env.stopQ w q = false →
      q ∈ (processQuestion env w words region optPos q st).answered ∧
      processQuestions env w words region optPos total (q :: rest) st =
        processQuestions env w words region optPos total rest
          (processQuestion env w words region optPos q st)) := by
  have hlt : ¬ total ≤ st.answered.length := Nat.not_le_of_lt hrun
  refine ⟨?_, ?_, ?_⟩
  · intro hcap
    simp only [answering_loop_scroll_mode, hlt, hstop, hcap]
    simp
  · intro hrec
    simp only [answering_loop_scroll_mode, hlt, hstop]
    cases hcap : env.capture w with
    | error e => simp
    | ok u => simp only [hrec]; simp
  · intro hstopq
    constructor
    · rw [processQuestion_answered_eq]
      exact mem_insertSet_self q st.answered
    · simp only [processQuestions, hstopq, hlt]
      simp

/-- Witness for C7: with one question in view and a failing oracle, a
capture failure ends the run, a recognition failure ends the run, and the
per-question step still marks the id answered and hands over to the rest
of the window. -/
theorem scroll_mode_fatal_vs_local_errors_witness :
    (captureFailEnv.capture 0 = .error () →
      answering_loop_scroll_mode captureFailEnv (0, 0, 100, 300) none 2 1 0
        ⟨[], []⟩ = ⟨[], []⟩) ∧
    (captureFailEnv.recognize 0 = .error () →
      answering_loop_scroll_mode captureFailEnv (0, 0, 100, 300) none 2 1 0
        ⟨[], []⟩ = ⟨[], []⟩) ∧
    (captureFailEnv.stopQ 0 1 = false →
      1 ∈ (processQuestion captureFailEnv 0 [] (0, 0, 100, 300) none 1
        ⟨[], []⟩).answered ∧
      processQuestions captureFailEnv 0 [] (0, 0, 100, 300) none 2 [1, 2] ⟨[], []⟩ =
        processQuestions captureFailEnv 0 [] (0, 0, 100, 300) none 2 [2]
          (processQuestion captureFailEnv 0 [] (0, 0, 100, 300) none 1 ⟨[], []⟩)) :=
  scroll_mode_fatal_vs_local_errors captureFailEnv (0, 0, 100, 300) none 2 0 0 1
    [] [2] ⟨[], []⟩ (by decide) (by decide)

/-- C10: throughout every scroll-mode run the answered set's size never
exceeds `total_questions` — the per-question loop re-checks the remaining
target before each question and each path adds at most one id — and the
loop returns as soon as the target is reached. -/
theorem scroll_mode_answered_le_total (env : ScrollEnv)
    (region : Int × Int × Int × Int)
    (optPos : Option (List (String × Int × Int))) (total fuel w : Nat)
    (st : ScrollState) (h : st.answered.length ≤ total) :
    (answering_loop_scroll_mode env region optPos total fuel w st).answered.length
      ≤ total ∧
    (total ≤ st.answered.length →
      answering_loop_scroll_mode env region optPos total fuel w st = st) :=
  ⟨scroll_loop_length_le env region optPos total fuel w st h,
   fun h2 => scroll_loop_stops_at_target env region optPos total fuel w st h2⟩

/-- Witness for C10: starting from the empty answered set with target 1,
after three windows the set's size is at most 1; and a run already at the
target returns at once. -/
theorem scroll_mode_answered_le_total_witness :
    (answering_loop_scroll_mode sampleScrollEnv (0, 0, 100, 300) none 1 3 0
      ⟨[], []⟩).answered.length ≤ 1 ∧
    (1 ≤ (⟨[], []⟩ : ScrollState).answered.length →
      answering_loop_scroll_mode sampleScrollEnv (0, 0, 100, 300) none 1 3 0
        ⟨[], []⟩ = ⟨[], []⟩) :=
  scroll_mode_answered_le_total sampleScrollEnv (0, 0, 100, 300) none 1 3 0
    ⟨[], []⟩ (by decide)

theorem clickOptionsNormal_attempted_eq (env : NormalEnv) (i : Nat) :
    ∀ (opts : List String) (positions : Option (List (String × Int × Int)))
      (st : NormalState),
    (clickOptionsNormal env i opts positions st).1.attempted = st.attempted
  | [], _, _ => rfl
  | _ :: _, none, _ => rfl
  | opt :: rest, some positions, st => by
    simp only [clickOptionsNormal]
    cases hd : dictGet positions opt with
    | none => exact clickOptionsNormal_attempted_eq env i rest (some positions) st
    | some v =>
      by_cases hc : env.clickOk i opt
      · simp only [hc, if_true]
        exact clickOptionsNormal_attempted_eq env i rest (some positions) _
      · simp [hc]

theorem answer_single_question_attempted_eq (env : NormalEnv) (i : Nat)
    (region : Int × Int × Int × Int)
    (optPos : Option (List (String × Int × Int)))
    (nextPos : Option (Int × Int)) (auto_next is_last : Bool)
    (st : NormalState) :
    (answer_single_question env i region optPos nextPos auto_next is_last st).1.attempted
      = st.attempted := by
  unfold answer_single_question
  cases env.capture i with
  | error e => rfl
  | ok u =>
    cases env.recognize i with
    | error e => rfl
    | ok ocr =>
      cases env.oracle i with
      | error e => rfl
      | ok ans =>
        simp only []
        split
        · exact clickOptionsNormal_attempted_eq env i _ _ _
        · split
          · split
            · exact clickOptionsNormal_attempted_eq env i _ _ _
            · exact clickOptionsNormal_attempted_eq env i _ _ _
          · exact clickOptionsNormal_attempted_eq env i _ _ _

theorem answering_loop_normal_attempted (env : NormalEnv)
    (region : Int × Int × Int × Int)
    (optPos : Option (List (String × Int × Int)))
    (nextPos : Option (Int × Int)) (auto_next : Bool) (total : Nat)
    (hstop : ∀ i, env.stop i = false) :
    ∀ (l : List Nat) (st : NormalState),
    (answering_loop_normal env region optPos nextPos auto_next total l st).attempted
      = st.attempted ++ l
  | [], st => by simp [answering_loop_normal]
  | i :: rest, st => by
    simp only [answering_loop_normal, hstop i, Bool.false_eq_true, if_false]
    rw [answering_loop_normal_attempted env region optPos nextPos auto_next total
      hstop rest _]
    split
    case _ st' u heq =>
      have := congrArg (fun p => p.1.attempted) heq
      simp only [answer_single_question_attempted_eq] at this
      simp only [← this]
      simp
    case _ st' msg heq =>
      have := congrArg (fun p => p.1.attempted) heq
      simp only [answer_single_question_attempted_eq] at this
      simp only [← this]
      simp

/-- C8: in the fixed-page loop, every iteration `1..total` is processed in
order no matter which per-iteration errors (capture, recognition, oracle,
clicking options, clicking next) the environment raises — each error is
caught, recorded, and the loop proceeds; additionally, a caught error at
iteration `i` is logged and the loop continues with the remaining
iterations. -/
theorem normal_mode_processes_every_iteration (env : NormalEnv)
    (region : Int × Int × Int × Int)
    (optPos : Option (List (String × Int × Int)))
    (nextPos : Option (Int × Int)) (auto_next : Bool) (total : Nat)
    (i : Nat) (rest : List Nat) (st st' : NormalState) (msg : String)
    (hstop : ∀ j, env.stop j = false)
    (herr : answer_single_question env i region optPos nextPos auto_next
      (i = total) { st with attempted := st.attempted ++ [i] }
      = (st', .error msg)) :
    (answering_loop_normal_mode env region optPos nextPos auto_next total).attempted
      = List.range' 1 total ∧
    answering_loop_normal env region optPos nextPos auto_next total (i :: rest) st
      = answering_loop_normal env region optPos nextPos auto_next total rest
          { st' with errors := st'.errors ++ [(i, msg)] } := by
  constructor
  · unfold answering_loop_normal_mode
    rw [answering_loop_normal_attempted env region optPos nextPos auto_next total
      hstop]
    rfl
  · simp only [answering_loop_normal, hstop i, Bool.false_eq_true, if_false, herr]

/-- Witness for C8: with every capture failing, the 3-question fixed-page
run still attempts iterations 1, 2, 3, and a failing iteration 1 logs its
error and hands over to the remaining iterations. -/
theorem normal_mode_processes_every_iteration_witness :
    (answering_loop_normal_mode normalCaptureFailEnv (0, 0, 100, 300) none none
      false 3).attempted = List.range' 1 3 ∧
    answering_loop_normal normalCaptureFailEnv (0, 0, 100, 300) none none false 3
      [1, 2, 3] ⟨[], [], []⟩
      = answering_loop_normal normalCaptureFailEnv (0, 0, 100, 300) none none false 3
          [2, 3] ⟨[1], [(1, "截图失败")], []⟩ :=
  normal_mode_processes_every_iteration normalCaptureFailEnv (0, 0, 100, 300)
    none none false 3 1 [2, 3] ⟨[], [], []⟩ ⟨[1], [], []⟩ "截图失败"
    (fun _ => rfl) rfl

/-- C9 (code bug): pressing start for a fixed-page session with basic
(non-positional) OCR and no marked option coordinates — with credentials
and region configured — never reaches the intended descriptive
configuration error "请先标记选项位置": the coordinate check at
main_window.py:1049 reads the local `scroll_mode` 31 lines before its
first assignment, so the handler raises `UnboundLocalError` and shows the
generic start-failure dialog instead. -/
theorem start_button_unbound_local_defeats_config_check :
    on_start_button_click
      { api_key := true, ocr_mode := "general_basic",
        baidu_basic_api_key := true, baidu_basic_secret_key := true,
        baidu_accurate_api_key := true, baidu_accurate_secret_key := true,
        region_set := true, option_positions_marked := false,
        interval_ok := true, total_ok := true, answering_mode := "normal",
        scroll_overlap_ok := true, scroll_delay_ok := true }
      = .startFailed
          "启动答题失败: local variable scroll_mode referenced before assignment" ∧
    on_start_button_click
      { api_key := true, ocr_mode := "general_basic",
        baidu_basic_api_key := true, baidu_basic_secret_key := true,
        baidu_accurate_api_key := true, baidu_accurate_secret_key := true,
        region_set := true, option_positions_marked := false,
        interval_ok := true, total_ok := true, answering_mode := "normal",
        scroll_overlap_ok := true, scroll_delay_ok := true }
      ≠ .configError "请先标记选项位置" ∧
    start_button_try
      { api_key := true, ocr_mode := "general_basic",
        baidu_basic_api_key := true, baidu_basic_secret_key := true,
        baidu_accurate_api_key := true, baidu_accurate_secret_key := true,
        region_set := true, option_positions_marked := false,
        interval_ok := true, total_ok := true, answering_mode := "normal",
        scroll_overlap_ok := true, scroll_delay_ok := true }
      (some false)
      = .ok (.configError "请先标记选项位置") := by
  refine ⟨by decide, by decide, by rfl⟩

end AutoAnswer
